import Mathlib

/-!
Shallow embedding of `src/gantt_helper.py` (class `GanttHelper`).

The script loads task records from a TOML file, derives a plotting table
(pandas DataFrame) and renders a Gantt chart with matplotlib.  The embedding
models:

* calendar dates as proleptic-Gregorian day ordinals (the TOML dates are
  whole days, so pandas `Timestamp` arithmetic is exact integer-day
  arithmetic);
* pandas DataFrames as Lean lists of rows, with positional indices playing
  the role of the 0..n-1 `RangeIndex` produced by `reset_index(drop=True)`;
* Python float arithmetic on the small quantities involved as exact `ℚ`
  arithmetic;
* the matplotlib calls made by `plot` as a trace of draw commands, and the
  filesystem effects (`os.makedirs`, `plt.savefig`) as a transition on an
  explicit filesystem state.
-/

/-- A calendar date, as in the `start`/`end` fields of the TOML records. -/
structure Date where
  year : Int
  month : Int
  day : Int
deriving DecidableEq, Repr

/-- Day ordinal of a date (days since 1970-01-01), the standard civil-from
days algorithm; models pandas `Timestamp` subtraction in whole days. -/
def Date.toOrdinal (dt : Date) : Int :=
  let y : Int := if dt.month ≤ 2 then dt.year - 1 else dt.year
  let era : Int := y / 400
  let yoe : Int := y - era * 400
  let doy : Int := (153 * ((dt.month + 9) % 12) + 2) / 5 + dt.day - 1
  let doe : Int := yoe * 365 + yoe / 4 - yoe / 100 + doy
  era * 146097 + doe - 719468

/-- Inverse of `Date.toOrdinal` (days-to-civil). -/
def Date.fromOrdinal (z0 : Int) : Date :=
  let z : Int := z0 + 719468
  let era : Int := z / 146097
  let doe : Int := z - era * 146097
  let yoe : Int := (doe - doe / 1460 + doe / 36524 - doe / 146096) / 365
  let y : Int := yoe + era * 400
  let doy : Int := doe - (365 * yoe + yoe / 4 - yoe / 100)
  let mp : Int := (5 * doy + 2) / 153
  let d : Int := doy - (153 * mp + 2) / 5 + 1
  let m : Int := if mp < 10 then mp + 3 else mp - 9
  { year := if m ≤ 2 then y + 1 else y, month := m, day := d }

/-- Zero-pad a number to two digits, as `strftime` does for months/days. -/
def pad2 (n : Int) : String :=
  if 0 ≤ n ∧ n < 10 then "0" ++ toString n else toString n

/-- Zero-pad a number to four digits, as `strftime` does for years. -/
def pad4 (n : Int) : String :=
  if 0 ≤ n ∧ n < 10 then "000" ++ toString n
  else if 0 ≤ n ∧ n < 100 then "00" ++ toString n
  else if 0 ≤ n ∧ n < 1000 then "0" ++ toString n
  else toString n

/-- `strftime("%Y-%m-%d")` on a date. -/
def Date.format (dt : Date) : String :=
  pad4 dt.year ++ "-" ++ pad2 dt.month ++ "-" ++ pad2 dt.day

/-- Minimum of a pandas Series of integers (`df.col.min()`); the `[]` case
only arises for an empty record set, where pandas yields `NaN` and the
script has already failed earlier. -/
def seriesMin : List Int → Int
  | [] => 0
  | x :: xs => xs.foldl min x

/-- Maximum of a pandas Series of integers (`df.col.max()`). -/
def seriesMax : List Int → Int
  | [] => 0
  | x :: xs => xs.foldl max x

/-- Computable floor of a rational (bridged to `Int.floor` below). -/
def rat_floor (q : ℚ) : Int := q.num / (q.den : Int)

/-- Computable ceiling of a rational. -/
def rat_ceil (q : ℚ) : Int := -rat_floor (-q)

/-- One TOML record (`toml_data` yields a mapping id → record; ids are
dropped by `raw_dataframe_data`, so we model the loaded data as the list of
records in file order). -/
structure Record where
  task : String
  start : Date
  «end» : Date
  complete : ℚ
deriving DecidableEq, Repr

/-- The `Union[str, bool]` type of the `dir` and `fname` constructor
arguments (a string, or the `False` default). -/
inductive StrOrBool where
  | str (s : String)
  | bool (b : Bool)
deriving DecidableEq, Repr

/-- Python truthiness of a `Union[str, bool]` value (`if self.fname:`). -/
def StrOrBool.truthy : StrOrBool → Bool
  | .str s => !s.isEmpty
  | .bool b => b

/-- Python `str()` / f-string rendering of a `Union[str, bool]` value. -/
def StrOrBool.pyStr : StrOrBool → String
  | .str s => s
  | .bool b => if b then "True" else "False"

/-- The constructor configuration of `GanttHelper.__init__`. -/
structure GanttHelper where
  src : String
  dir : StrOrBool
  fname : StrOrBool
  sort_by_start : Bool
  x_ticks_num : Nat
  fig_size : ℚ × ℚ
deriving Repr

/-- `GanttHelper.to_color` (staticmethod, lines 144-153 of the source). -/
def GanttHelper.to_color (x : ℚ) : ℚ × ℚ × ℚ × ℚ :=
  if x = 100 then (0.3, 0.3, 0.3, 1)
  else if x < 100 ∧ x > 60 then (0, 0.5, 0.3, x / 100)
  else (0.7, 0, 0, 0.8)

/-- The ascending-by-`start` ordering used by `df.sort_values(by='start')`. -/
def sort_le (a b : Record) : Prop := a.start.toOrdinal ≤ b.start.toOrdinal

instance : DecidableRel sort_le := fun a b =>
  inferInstanceAs (Decidable (a.start.toOrdinal ≤ b.start.toOrdinal))

instance : IsTotal Record sort_le := ⟨fun x y => Int.le_total x.start.toOrdinal y.start.toOrdinal⟩

instance : IsTrans Record sort_le := ⟨fun _ _ _ h1 h2 => le_trans h1 h2⟩

/-- `raw_dataframe_data` (lines 110-117): build the table from the record
values and, when `sort_by_start`, sort ascending by `start` and renumber the
index 0..n-1 (`reset_index(drop=True)` is the positional indexing of the
resulting list).  `df.sort_values(by='start')` guarantees only an
ascending sorted permutation of the rows: its default `kind='quicksort'`
is documented by pandas as NOT stable, so the relative order of rows with
equal start dates is unspecified by the source.  The model must pick some
executable sorted permutation and uses `List.insertionSort`; no theorem in
this development relies on the tie order of this choice (in particular the
stability the model's sort happens to have is nowhere asserted). -/
def raw_dataframe_data (sort_by_start : Bool) (recs : List Record) : List Record :=
  if sort_by_start then List.insertionSort sort_le recs else recs

/-- `df.task.unique().tolist()`: the distinct task labels in first-seen
row order (pandas `Series.unique` preserves order of first occurrence). -/
def pd_unique (l : List String) : List String :=
  l.foldl (fun acc t => if t ∈ acc then acc else acc ++ [t]) []

/-- The closure `unique_task_id` inside `cleaned_dataframe_data` (lines
125-127): `l = df.task.unique().tolist(); return l.index(x)`. -/
def unique_task_id (tasks : List String) (x : String) : Nat :=
  (pd_unique tasks).indexOf x

/-- One row of the derived table built by `cleaned_dataframe_data`. -/
structure Row where
  task : String
  start : Date
  «end» : Date
  complete : ℚ
  start_num : Int
  start_end : Int
  end_num : Int
  current_num : ℚ
  color : ℚ × ℚ × ℚ × ℚ
  uid : Nat
deriving Repr

/-- `cleaned_dataframe_data` (lines 120-141).  The `timedelta` columns are
cast via `.astype('timedelta64[D]').astype(int)`; the dates are whole days,
so this is exact integer-day subtraction. -/
def cleaned_dataframe_data (sort_by_start : Bool) (recs : List Record) : List Row :=
  let df := raw_dataframe_data sort_by_start recs
  let tasks := df.map Record.task
  let minStart := seriesMin (df.map (fun r => r.start.toOrdinal))
  df.map (fun r =>
    let start_num := r.start.toOrdinal - minStart
    let start_end := r.«end».toOrdinal - r.start.toOrdinal
    { task := r.task
      start := r.start
      «end» := r.«end»
      complete := r.complete
      start_num := start_num
      start_end := start_end
      end_num := start_num + start_end
      current_num := (start_end : ℚ) * r.complete / 100
      color := GanttHelper.to_color r.complete
      uid := unique_task_id tasks r.task })

/-- `df.end_num.max()`. -/
def maxEndNum (df : List Row) : Int := seriesMax (df.map Row.end_num)

/-- `df.start_num.min()`. -/
def minStartNum (df : List Row) : Int := seriesMin (df.map Row.start_num)

/-- `df.start.min()` as a day ordinal. -/
def minStartOrd (df : List Row) : Int := seriesMin (df.map (fun r => r.start.toOrdinal))

/-- `df.end.max()` as a day ordinal. -/
def maxEndOrd (df : List Row) : Int := seriesMax (df.map (fun r => r.«end».toOrdinal))

/-- The tick step of line 67:
`(df.end_num.max() - df.start_num.min()) / x_ticks_num`. -/
def tick_step (gh : GanttHelper) (df : List Row) : ℚ :=
  ((maxEndNum df : ℚ) - (minStartNum df : ℚ)) / (gh.x_ticks_num : ℚ)

/-- `np.arange(0, stop, step)` over exact rationals: `none` models the
`ZeroDivisionError` numpy raises for a zero step; otherwise the values
`0, step, 2*step, ...`, of length `max 0 ⌈stop / step⌉`. -/
def np_arange (stop step : ℚ) : Option (List ℚ) :=
  if step = 0 then none
  else some ((List.range (rat_ceil (stop / step)).toNat).map (fun (k : Nat) => (k : ℚ) * step))

/-- `pd.date_range(a, b, n).strftime("%Y-%m-%d")` at whole-day resolution:
`n` timestamps evenly spaced from `a` to `b` (inclusive), truncated to the
calendar day they fall in.  For `n = 1` pandas returns just `a`. -/
def pd_date_range (a b : Int) (n : Nat) : List Int :=
  (List.range n).map (fun (i : Nat) =>
    if n ≤ 1 then a
    else rat_floor ((a : ℚ) + (i : ℚ) * ((b : ℚ) - (a : ℚ)) / ((n : ℚ) - 1)))

/-- One `ax.barh(ys, widths, left=lefts, color=colors, alpha)` call;
matplotlib's default `alpha=None` is full opacity 1. -/
structure BarhCall where
  ys : List String
  widths : List ℚ
  lefts : List ℚ
  colors : List (ℚ × ℚ × ℚ × ℚ)
  alpha : ℚ
deriving Repr

/-- One `ax.text(x, y, s, va='center')` call (line 65). -/
structure TextCall where
  x : ℚ
  y : Nat
  s : String
deriving Repr

/-- The trace of drawing commands issued by one successful `plot()` call. -/
structure PlotOutput where
  barh_calls : List BarhCall
  text_calls : List TextCall
  xticks : List ℚ
  xticklabels : List String
  title : String
  saved : Option String
deriving Repr

/-- Filesystem state: the directories and files that exist. -/
structure FS where
  dirs : List String
  files : List String
deriving DecidableEq, Repr

/-- Append a name to a list if it is not already present. -/
def addIfAbsent (l : List String) (x : String) : List String :=
  if x ∈ l then l else l ++ [x]

/-- All ancestors of a `/`-separated path, innermost last; `os.makedirs`
creates every one of them. -/
def pathPrefixes (d : String) : List String :=
  let parts := d.splitOn "/"
  (List.range parts.length).map (fun i => String.intercalate "/" (parts.take (i + 1)))

/-- `os.makedirs(d, exist_ok=...)`: creates `d` and its ancestors; raises
`FileExistsError` only when `d` exists and `exist_ok` is false. -/
def os_makedirs (fs : FS) (d : String) (exist_ok : Bool) : Except String FS :=
  if d ∈ fs.dirs ∧ exist_ok = false then .error ("FileExistsError: " ++ d)
  else .ok { fs with dirs := (pathPrefixes d).foldl addIfAbsent fs.dirs }

/-- The `output_path` property (lines 77-85): when `dir` is truthy it calls
`os.makedirs(self.dir, exist_ok=True)` and returns `f'{dir}/{fname}.png'`,
otherwise `f'{fname}.png'`. -/
def output_path (gh : GanttHelper) (fs : FS) : Except String (FS × String) :=
  if gh.dir.truthy then
    match os_makedirs fs gh.dir.pyStr true with
    | .error e => .error e
    | .ok fs1 => .ok (fs1, gh.dir.pyStr ++ "/" ++ gh.fname.pyStr ++ ".png")
  else .ok (fs, gh.fname.pyStr ++ ".png")

/-- Python `int()` truncation of a rational (`int(row.complete)`). -/
def py_int (q : ℚ) : Int := q.num.tdiv (q.den : Int)

/-- The body of `plot()` past the x-ticks computation, once `np.arange` has
produced the tick list: the remaining drawing state and the save effect.
Factored out of `plot` so the success case can be reasoned about directly. -/
def plot_core (gh : GanttHelper) (recs : List Record) (fs : FS) (ticks : List ℚ) :
    PlotOutput × FS :=
  let df := cleaned_dataframe_data gh.sort_by_start recs
  let tasksCol := df.map Row.task
  let colorsCol := df.map Row.color
  let leftsCol := df.map (fun r => (r.start_num : ℚ))
  let barB : BarhCall :=
    { ys := tasksCol, widths := df.map Row.current_num, lefts := leftsCol
      colors := colorsCol, alpha := 1 }
  let barA : BarhCall :=
    { ys := tasksCol, widths := df.map (fun r => (r.start_end : ℚ)), lefts := leftsCol
      colors := colorsCol, alpha := 0.5 }
  let texts := df.map (fun r =>
    { x := (r.end_num : ℚ) + (seriesMax (df.map Row.start_end) : ℚ) * 0.01
      y := r.uid
      s := toString (py_int r.complete) ++ "%" : TextCall })
  let labels :=
    (pd_date_range (minStartOrd df) (maxEndOrd df) gh.x_ticks_num).map
      (fun d => (Date.fromOrdinal d).format)
  let po : PlotOutput :=
    { barh_calls := [barB, barA]
      text_calls := texts
      xticks := ticks
      xticklabels := labels
      title := gh.fname.pyStr
      saved := none }
  if gh.fname.truthy then
    match output_path gh fs with
    | .error _ => (po, fs)
    | .ok (fs1, p) =>
        ({ po with saved := some p }, { fs1 with files := addIfAbsent fs1.files p })
  else (po, fs)

/-- `plot()` (lines 42-75), as the trace of matplotlib calls plus the
filesystem transition.  An empty record set fails while building the table
(`sort_values` / `df.start` on a frame with no columns); a zero tick step
fails inside `np.arange` at line 69, before the title is set or any file is
written.  `os.makedirs` is called with `exist_ok=True`, so `output_path`
itself cannot fail. -/
def GanttHelper.plot (gh : GanttHelper) (recs : List Record) (fs : FS) :
    Except String (PlotOutput × FS) :=
  if recs.isEmpty then .error "KeyError: start"
  else
    let df := cleaned_dataframe_data gh.sort_by_start recs
    match np_arange (maxEndNum df : ℚ) (tick_step gh df) with
    | none => .error "ZeroDivisionError: division by zero"
    | some ticks => .ok (plot_core gh recs fs ticks)

/-- The color rule exactly as the claim states it: gray at 100, green on
the open interval (60, 100), red otherwise. -/
def claim_to_color (x : ℚ) : ℚ × ℚ × ℚ × ℚ :=
  if x = 100 then (0.3, 0.3, 0.3, 1)
  else if 60 < x ∧ x < 100 then (0, 0.5, 0.3, x / 100)
  else (0.7, 0, 0, 0.8)

/-- The uid rule exactly as the claim states it: scanning the task labels
in final row order with the list `seen` of labels already assigned, a fresh
label receives the next free id (`seen.length`) and a repeated label reuses
the id it was first assigned (its position in `seen`). -/
def claim_uids (seen : List String) : List String → List Nat
  | [] => []
  | t :: ts =>
    if t ∈ seen then seen.indexOf t :: claim_uids seen ts
    else seen.length :: claim_uids (seen ++ [t]) ts

/-- The tick positions exactly as the claim states them:
`0, step, 2*step, ...`, one per requested tick. -/
def claim_tick_positions (step : ℚ) (n : Nat) : List ℚ :=
  (List.range n).map (fun (k : Nat) => (k : ℚ) * step)

/-- Record from the `toml_data` docstring example: `start` after `end`. -/
def rec_neg : Record := ⟨"A", ⟨2018, 6, 27⟩, ⟨2018, 6, 22⟩, 55⟩

/-- A well-formed two-day record, 55% complete. -/
def rec_ok : Record := ⟨"A", ⟨2018, 6, 20⟩, ⟨2018, 6, 22⟩, 55⟩

/-- A zero-length record: `start = end`, so every derived numeric column
is 0 and the tick step degenerates to 0. -/
def rec_zero : Record := ⟨"A", ⟨2018, 6, 20⟩, ⟨2018, 6, 20⟩, 55⟩

/-- Fixture rows with the start dates of the spec example
[2018-06-27, 2018-06-20, 2018-06-25]. -/
def rec_a : Record := ⟨"Task A", ⟨2018, 6, 27⟩, ⟨2018, 6, 29⟩, 30⟩

def rec_b : Record := ⟨"Task B", ⟨2018, 6, 20⟩, ⟨2018, 6, 24⟩, 61⟩

def rec_c : Record := ⟨"Task C", ⟨2018, 6, 25⟩, ⟨2018, 6, 30⟩, 100⟩

def recs_abc : List Record := [rec_a, rec_b, rec_c]

/-- Fixture rows with a repeated task label "B". -/
def rec_d1 : Record := ⟨"B", ⟨2018, 6, 27⟩, ⟨2018, 6, 28⟩, 10⟩

def rec_d2 : Record := ⟨"A", ⟨2018, 6, 20⟩, ⟨2018, 6, 21⟩, 20⟩

def rec_d3 : Record := ⟨"B", ⟨2018, 6, 25⟩, ⟨2018, 6, 26⟩, 30⟩

def recs_dup : List Record := [rec_d1, rec_d2, rec_d3]

/-- A configuration with the constructor defaults (`dir=False, fname=False,
sort_by_start=True, x_ticks_num=10, fig_size=(20, 5)`). -/
def gh_default : GanttHelper := ⟨"gantt", .bool false, .bool false, true, 10, (20, 5)⟩

/-- The configuration of the docstring example:
`dir='Images', fname='Gantt'`. -/
def gh_images : GanttHelper := ⟨"gantt", .str "Images", .str "Gantt", true, 10, (20, 5)⟩

/-- An empty filesystem. -/
def fs0 : FS := ⟨[], []⟩

theorem rat_floor_eq (q : ℚ) : rat_floor q = ⌊q⌋ := Rat.floor_def.symm

theorem rat_ceil_eq (q : ℚ) : rat_ceil q = ⌈q⌉ := by
  rw [rat_ceil, rat_floor_eq, ← Int.ceil_neg, neg_neg]

theorem foldl_min_le_init (xs : List Int) : ∀ a : Int, xs.foldl min a ≤ a := by
  induction xs with
  | nil => intro a; simp
  | cons x t ih =>
      intro a
      exact le_trans (ih (min a x)) (min_le_left a x)

theorem foldl_min_le_mem (xs : List Int) : ∀ a y, y ∈ xs → xs.foldl min a ≤ y := by
  induction xs with
  | nil => intro a y hy; cases hy
  | cons x t ih =>
      intro a y hy
      rcases List.mem_cons.mp hy with h | h
      · subst h
        exact le_trans (foldl_min_le_init t (min a y)) (min_le_right a y)
      · exact ih (min a x) y h

theorem foldl_min_mem (xs : List Int) : ∀ a, xs.foldl min a = a ∨ xs.foldl min a ∈ xs := by
  induction xs with
  | nil => intro a; left; rfl
  | cons x t ih =>
      intro a
      rcases ih (min a x) with h | h
      · rcases min_cases a x with ⟨hm, _⟩ | ⟨hm, _⟩
        · left; simpa [List.foldl_cons, hm] using h
        · right
          apply List.mem_cons.mpr
          left
          simpa [List.foldl_cons, hm] using h
      · right
        apply List.mem_cons.mpr
        right
        simpa [List.foldl_cons] using h

theorem seriesMin_le {xs : List Int} {y : Int} (hy : y ∈ xs) : seriesMin xs ≤ y := by
  cases xs with
  | nil => cases hy
  | cons x t =>
      rcases List.mem_cons.mp hy with h | h
      · subst h; exact foldl_min_le_init t y
      · exact foldl_min_le_mem t x y h

theorem seriesMin_mem {xs : List Int} (hxs : xs ≠ []) : seriesMin xs ∈ xs := by
  cases xs with
  | nil => exact absurd rfl hxs
  | cons x t =>
      rcases foldl_min_mem t x with h | h
      · apply List.mem_cons.mpr
        left
        exact h
      · apply List.mem_cons.mpr
        right
        simpa [seriesMin] using h

theorem seriesMin_eq_of {xs : List Int} {c : Int} (hmem : c ∈ xs)
    (hle : ∀ y ∈ xs, c ≤ y) : seriesMin xs = c := by
  have h1 : seriesMin xs ≤ c := seriesMin_le hmem
  have h2 : c ≤ seriesMin xs := by
    apply hle
    apply seriesMin_mem
    intro h
    rw [h] at hmem
    cases hmem
  exact le_antisymm h1 h2

theorem foldl_max_init_le (xs : List Int) : ∀ a : Int, a ≤ xs.foldl max a := by
  induction xs with
  | nil => intro a; simp
  | cons x t ih =>
      intro a
      exact le_trans (le_max_left a x) (ih (max a x))

theorem foldl_max_mem_le (xs : List Int) : ∀ a y, y ∈ xs → y ≤ xs.foldl max a := by
  induction xs with
  | nil => intro a y hy; cases hy
  | cons x t ih =>
      intro a y hy
      rcases List.mem_cons.mp hy with h | h
      · subst h
        exact le_trans (le_max_right a y) (foldl_max_init_le t (max a y))
      · exact ih (max a x) y h

theorem le_seriesMax {xs : List Int} {y : Int} (hy : y ∈ xs) : y ≤ seriesMax xs := by
  cases xs with
  | nil => cases hy
  | cons x t =>
      rcases List.mem_cons.mp hy with h | h
      · subst h; exact foldl_max_init_le t y
      · exact foldl_max_mem_le t x y h

theorem indexOf_append_left {t : String} :
    ∀ (l1 l2 : List String), t ∈ l1 → (l1 ++ l2).indexOf t = l1.indexOf t := by
  intro l1
  induction l1 with
  | nil => intro l2 h; cases h
  | cons a l1' ih =>
      intro l2 h
      by_cases hat : a = t
      · simp [List.indexOf_cons, hat]
      · have ht : t ∈ l1' := by
          rcases List.mem_cons.mp h with h1 | h1
          · exact absurd h1.symm hat
          · exact h1
        simp [List.indexOf_cons, hat, ih l2 ht]

theorem indexOf_append_self {t : String} :
    ∀ (l1 l2 : List String), t ∉ l1 → (l1 ++ t :: l2).indexOf t = l1.length := by
  intro l1
  induction l1 with
  | nil => intro l2 _; simp [List.indexOf_cons]
  | cons a l1' ih =>
      intro l2 h
      have hat : a ≠ t := fun he => h (by simp [he])
      have ht : t ∉ l1' := fun hm => h (List.mem_cons.mpr (Or.inr hm))
      simp [List.indexOf_cons, hat, ih l2 ht]

theorem mem_addIfAbsent_self (l : List String) (x : String) : x ∈ addIfAbsent l x := by
  by_cases h : x ∈ l <;> simp [addIfAbsent, h]

theorem mem_addIfAbsent_of_mem {l : List String} {x y : String} (h : y ∈ l) :
    y ∈ addIfAbsent l x := by
  by_cases hx : x ∈ l <;> simp [addIfAbsent, hx, h]

theorem mem_of_mem_addIfAbsent {l : List String} {x y : String}
    (h : y ∈ addIfAbsent l x) : y ∈ l ∨ y = x := by
  by_cases hx : x ∈ l
  · simp [addIfAbsent, hx] at h; exact Or.inl h
  · simp [addIfAbsent, hx] at h; exact h

theorem foldl_addIfAbsent_ext :
    ∀ (l acc : List String), ∃ ext, l.foldl addIfAbsent acc = acc ++ ext := by
  intro l
  induction l with
  | nil => intro acc; exact ⟨[], by simp⟩
  | cons a l' ih =>
      intro acc
      obtain ⟨ext, he⟩ := ih (addIfAbsent acc a)
      by_cases ha : a ∈ acc
      · exact ⟨ext, by simpa [addIfAbsent, ha] using he⟩
      · refine ⟨[a] ++ ext, ?_⟩
        simp only [List.foldl_cons, he]
        simp [addIfAbsent, ha]

theorem mem_foldl_addIfAbsent_init {y : String} :
    ∀ (l acc : List String), y ∈ acc → y ∈ l.foldl addIfAbsent acc := by
  intro l acc h
  obtain ⟨ext, he⟩ := foldl_addIfAbsent_ext l acc
  rw [he]
  exact List.mem_append_left ext h

theorem mem_foldl_addIfAbsent_of_mem {y : String} :
    ∀ (l acc : List String), y ∈ l → y ∈ l.foldl addIfAbsent acc := by
  intro l
  induction l with
  | nil => intro acc h; cases h
  | cons a l' ih =>
      intro acc h
      rcases List.mem_cons.mp h with h1 | h1
      · subst h1
        exact mem_foldl_addIfAbsent_init l' (addIfAbsent acc y) (mem_addIfAbsent_self acc y)
      · exact ih (addIfAbsent acc a) h1

theorem mem_foldl_addIfAbsent_elim {y : String} :
    ∀ (l acc : List String), y ∈ l.foldl addIfAbsent acc → y ∈ acc ∨ y ∈ l := by
  intro l
  induction l with
  | nil => intro acc h; exact Or.inl h
  | cons a l' ih =>
      intro acc h
      rcases ih (addIfAbsent acc a) h with h1 | h1
      · rcases mem_of_mem_addIfAbsent h1 with h2 | h2
        · exact Or.inl h2
        · exact Or.inr (by simp [h2])
      · exact Or.inr (List.mem_cons.mpr (Or.inr h1))

theorem foldl_addIfAbsent_id :
    ∀ (l acc : List String), (∀ p ∈ l, p ∈ acc) → l.foldl addIfAbsent acc = acc := by
  intro l
  induction l with
  | nil => intro acc _; rfl
  | cons a l' ih =>
      intro acc h
      have ha : a ∈ acc := h a (by simp)
      have : addIfAbsent acc a = acc := by simp [addIfAbsent, ha]
      rw [List.foldl_cons, this]
      exact ih acc (fun p hp => h p (List.mem_cons.mpr (Or.inr hp)))

theorem pd_unique_eq_foldl (l : List String) : pd_unique l = l.foldl addIfAbsent [] := rfl

theorem pd_unique_append (a b : List String) :
    pd_unique (a ++ b) = b.foldl addIfAbsent (pd_unique a) := by
  rw [pd_unique_eq_foldl, pd_unique_eq_foldl, List.foldl_append]

theorem mem_pd_unique {l : List String} {y : String} : y ∈ pd_unique l ↔ y ∈ l := by
  constructor
  · intro h
    rcases mem_foldl_addIfAbsent_elim l [] h with h1 | h1
    · cases h1
    · exact h1
  · intro h
    exact mem_foldl_addIfAbsent_of_mem l [] h

theorem indexOf_foldl_addIfAbsent {t : String} (l acc : List String) (h : t ∈ acc) :
    (l.foldl addIfAbsent acc).indexOf t = acc.indexOf t := by
  obtain ⟨ext, he⟩ := foldl_addIfAbsent_ext l acc
  rw [he, indexOf_append_left acc ext h]

theorem map_indexOf_pd_unique :
    ∀ (ts pre : List String),
      ts.map (fun t => (pd_unique (pre ++ ts)).indexOf t) = claim_uids (pd_unique pre) ts := by
  intro ts
  induction ts with
  | nil => intro pre; simp [claim_uids]
  | cons t ts' ih =>
      intro pre
      have hsplit : pre ++ t :: ts' = (pre ++ [t]) ++ ts' := by simp
      have hstep : pd_unique (pre ++ [t]) = addIfAbsent (pd_unique pre) t := by
        rw [pd_unique_append]
        rfl
      have htail := ih (pre ++ [t])
      by_cases hmem : t ∈ pd_unique pre
      · have haia : addIfAbsent (pd_unique pre) t = pd_unique pre := by
          simp [addIfAbsent, hmem]
        have hu : pd_unique ((pre ++ [t]) ++ ts') = ts'.foldl addIfAbsent (pd_unique pre) := by
          rw [pd_unique_append, hstep, haia]
        simp only [List.map_cons, hsplit, hu, claim_uids, if_pos hmem]
        congr 1
        · exact indexOf_foldl_addIfAbsent ts' (pd_unique pre) hmem
        · have := htail
          simp only [hu] at this
          rw [hstep, haia] at this
          exact this
      · have haia : addIfAbsent (pd_unique pre) t = pd_unique pre ++ [t] := by
          simp [addIfAbsent, hmem]
        have hu : pd_unique ((pre ++ [t]) ++ ts') =
            ts'.foldl addIfAbsent (pd_unique pre ++ [t]) := by
          rw [pd_unique_append, hstep, haia]
        simp only [List.map_cons, hsplit, hu, claim_uids, if_neg hmem]
        congr 1
        · have hmem2 : t ∈ pd_unique pre ++ [t] := by simp
          rw [indexOf_foldl_addIfAbsent ts' (pd_unique pre ++ [t]) hmem2]
          exact indexOf_append_self (pd_unique pre) [] hmem
        · have := htail
          simp only [hu] at this
          rw [hstep, haia] at this
          exact this

theorem cleaned_def (sort : Bool) (recs : List Record) :
    cleaned_dataframe_data sort recs =
      (raw_dataframe_data sort recs).map (fun r =>
        { task := r.task
          start := r.start
          «end» := r.«end»
          complete := r.complete
          start_num := r.start.toOrdinal -
            seriesMin ((raw_dataframe_data sort recs).map (fun x => x.start.toOrdinal))
          start_end := r.«end».toOrdinal - r.start.toOrdinal
          end_num := (r.start.toOrdinal -
            seriesMin ((raw_dataframe_data sort recs).map (fun x => x.start.toOrdinal))) +
            (r.«end».toOrdinal - r.start.toOrdinal)
          current_num := ((r.«end».toOrdinal - r.start.toOrdinal : Int) : ℚ) * r.complete / 100
          color := GanttHelper.to_color r.complete
          uid := unique_task_id ((raw_dataframe_data sort recs).map Record.task) r.task }) :=
  rfl

theorem cleaned_length (sort : Bool) (recs : List Record) :
    (cleaned_dataframe_data sort recs).length = (raw_dataframe_data sort recs).length := by
  rw [cleaned_def, List.length_map]

theorem cleaned_map_task (sort : Bool) (recs : List Record) :
    (cleaned_dataframe_data sort recs).map Row.task =
      (raw_dataframe_data sort recs).map Record.task := by
  rw [cleaned_def, List.map_map]
  rfl

theorem cleaned_map_uid (sort : Bool) (recs : List Record) :
    (cleaned_dataframe_data sort recs).map Row.uid =
      ((raw_dataframe_data sort recs).map Record.task).map
        (fun t => (pd_unique ((raw_dataframe_data sort recs).map Record.task)).indexOf t) := by
  rw [cleaned_def, List.map_map, List.map_map]
  rfl

theorem cleaned_get_eq (sort : Bool) (recs : List Record) (i : Nat)
    (hi : i < (cleaned_dataframe_data sort recs).length)
    (hi2 : i < (raw_dataframe_data sort recs).length) :
    (cleaned_dataframe_data sort recs).get ⟨i, hi⟩ =
      (fun r : Record =>
        ({ task := r.task
           start := r.start
           «end» := r.«end»
           complete := r.complete
           start_num := r.start.toOrdinal -
             seriesMin ((raw_dataframe_data sort recs).map (fun x => x.start.toOrdinal))
           start_end := r.«end».toOrdinal - r.start.toOrdinal
           end_num := (r.start.toOrdinal -
             seriesMin ((raw_dataframe_data sort recs).map (fun x => x.start.toOrdinal))) +
             (r.«end».toOrdinal - r.start.toOrdinal)
           current_num := ((r.«end».toOrdinal - r.start.toOrdinal : Int) : ℚ) * r.complete / 100
           color := GanttHelper.to_color r.complete
           uid := unique_task_id ((raw_dataframe_data sort recs).map Record.task) r.task } : Row))
        ((raw_dataframe_data sort recs).get ⟨i, hi2⟩) := by
  rw [List.get_eq_getElem, List.get_eq_getElem,
    List.getElem_of_eq (cleaned_def sort recs) hi, List.getElem_map]

theorem cleaned_get_uid_eq (sort : Bool) (recs : List Record) (i : Nat)
    (hi : i < (cleaned_dataframe_data sort recs).length) :
    ((cleaned_dataframe_data sort recs).get ⟨i, hi⟩).uid =
      unique_task_id ((raw_dataframe_data sort recs).map Record.task)
        (((cleaned_dataframe_data sort recs).get ⟨i, hi⟩).task) := by
  have hi2 : i < (raw_dataframe_data sort recs).length := by
    rw [← cleaned_length sort recs]
    exact hi
  rw [cleaned_get_eq sort recs i hi hi2]

/-- Claim C6: for every row, `uid` is the position of the row's task label
in the list of distinct task labels in final row order: scanning the rows
in order, the first distinct label gets 0, the second 1, and so on, and a
repeated task label reuses the uid first assigned to that label
(`claim_uids`); moreover rows with equal task labels always share a uid. -/
theorem uid_first_seen_positions (sort : Bool) (recs : List Record) :
    ((cleaned_dataframe_data sort recs).map Row.uid =
      claim_uids [] ((cleaned_dataframe_data sort recs).map Row.task)) ∧
    (∀ i j (hi : i < (cleaned_dataframe_data sort recs).length)
        (hj : j < (cleaned_dataframe_data sort recs).length),
      ((cleaned_dataframe_data sort recs).get ⟨i, hi⟩).task =
        ((cleaned_dataframe_data sort recs).get ⟨j, hj⟩).task →
      ((cleaned_dataframe_data sort recs).get ⟨i, hi⟩).uid =
        ((cleaned_dataframe_data sort recs).get ⟨j, hj⟩).uid) := by
  constructor
  · rw [cleaned_map_uid, cleaned_map_task]
    have h := map_indexOf_pd_unique ((raw_dataframe_data sort recs).map Record.task) []
    simp only [List.nil_append] at h
    exact h
  · intro i j hi hj htask
    rw [cleaned_get_uid_eq sort recs i hi, cleaned_get_uid_eq sort recs j hj, htask]

theorem uid_first_seen_positions_witness :
    ((cleaned_dataframe_data true recs_dup).get ⟨1, by decide⟩).task =
      ((cleaned_dataframe_data true recs_dup).get ⟨2, by decide⟩).task ∧
    ((cleaned_dataframe_data true recs_dup).get ⟨1, by decide⟩).uid =
      ((cleaned_dataframe_data true recs_dup).get ⟨2, by decide⟩).uid :=
  ⟨by decide,
   (uid_first_seen_positions true recs_dup).2 1 2 (by decide) (by decide) (by decide)⟩

/-- Claim C1: `to_color` is a pure total function of the completion value:
gray `(0.3, 0.3, 0.3, 1)` exactly at 100, green `(0, 0.5, 0.3, x/100)` on
the open interval `(60, 100)`, and red `(0.7, 0, 0, 0.8)` otherwise; in
particular 60, 0, every negative value and every value above 100 are red. -/
theorem to_color_total_cases :
    (∀ x : ℚ, GanttHelper.to_color x = claim_to_color x) ∧
    GanttHelper.to_color 100 = (0.3, 0.3, 0.3, 1) ∧
    GanttHelper.to_color 60 = (0.7, 0, 0, 0.8) ∧
    GanttHelper.to_color 0 = (0.7, 0, 0, 0.8) ∧
    (∀ x : ℚ, x < 0 → GanttHelper.to_color x = (0.7, 0, 0, 0.8)) ∧
    (∀ x : ℚ, 100 < x → GanttHelper.to_color x = (0.7, 0, 0, 0.8)) := by
  refine ⟨?_, ?_, ?_, ?_, ?_, ?_⟩
  · intro x
    by_cases h1 : x = 100
    · simp [GanttHelper.to_color, claim_to_color, h1]
    · by_cases h2 : 60 < x
      · by_cases h3 : x < 100
        · simp [GanttHelper.to_color, claim_to_color, h1, h2, h3]
        · simp [GanttHelper.to_color, claim_to_color, h1, h2, h3]
      · simp [GanttHelper.to_color, claim_to_color, h1, h2]
  · norm_num [GanttHelper.to_color]
  · norm_num [GanttHelper.to_color]
  · norm_num [GanttHelper.to_color]
  · intro x hx
    have h1 : x ≠ 100 := by linarith
    have h2 : ¬ (60 < x) := by linarith
    simp [GanttHelper.to_color, h1, h2]
  · intro x hx
    have h1 : x ≠ 100 := by linarith
    have h3 : ¬ (x < 100) := by linarith
    simp [GanttHelper.to_color, h1, h3]

theorem to_color_total_cases_witness :
    ((-1 : ℚ) < 0 ∧ GanttHelper.to_color (-1) = (0.7, 0, 0, 0.8)) ∧
    ((100 : ℚ) < 101 ∧ GanttHelper.to_color 101 = (0.7, 0, 0, 0.8)) :=
  ⟨⟨by norm_num, to_color_total_cases.2.2.2.2.1 (-1) (by norm_num)⟩,
   ⟨by norm_num, to_color_total_cases.2.2.2.2.2 101 (by norm_num)⟩⟩

/-- What `df.sort_values(by='start')` does guarantee (see claim C4, left
unresolved): with `sort_by_start` true the rows are an ascending sorted
permutation of the loaded records, renumbered positionally 0..n-1, and on
the spec's example start dates [2018-06-27, 2018-06-20, 2018-06-25] — all
distinct, so every admissible sorted permutation agrees (the third
conjunct checks all six orderings of the example records) — the resulting
order is [2018-06-20, 2018-06-25, 2018-06-27].  The claim's further
assertion that the sort is STABLE is a tie-order guarantee the source does
not provide (`sort_values`' default `kind='quicksort'` is documented as
not stable), so it is deliberately not stated here. -/
theorem raw_sort_values_guarantees :
    (∀ recs : List Record,
      List.Sorted sort_le (raw_dataframe_data true recs) ∧
      (raw_dataframe_data true recs).Perm recs ∧
      (raw_dataframe_data true recs).length = recs.length) ∧
    raw_dataframe_data true recs_abc = [rec_b, rec_c, rec_a] ∧
    (∀ l ∈ [[rec_a, rec_b, rec_c], [rec_a, rec_c, rec_b], [rec_b, rec_a, rec_c],
        [rec_b, rec_c, rec_a], [rec_c, rec_a, rec_b], [rec_c, rec_b, rec_a]],
      List.Sorted sort_le l → l = [rec_b, rec_c, rec_a]) := by
  refine ⟨?_, by decide, by decide⟩
  intro recs
  refine ⟨?_, ?_, ?_⟩
  · exact List.sorted_insertionSort sort_le recs
  · exact List.perm_insertionSort sort_le recs
  · exact List.length_insertionSort sort_le recs

/-- Claim C2 (amended): every derived row has
`current_num = start_end * complete / 100`, and when `0 ≤ complete ≤ 100`
and additionally the row's duration is non-negative (`start ≤ end`, which
the code never checks), `0 ≤ current_num ≤ start_end`. -/
theorem current_num_formula_bounds (sort : Bool) (recs : List Record) (i : Nat)
    (hi : i < (cleaned_dataframe_data sort recs).length) :
    ((cleaned_dataframe_data sort recs).get ⟨i, hi⟩).current_num =
      (((cleaned_dataframe_data sort recs).get ⟨i, hi⟩).start_end : ℚ) *
        ((cleaned_dataframe_data sort recs).get ⟨i, hi⟩).complete / 100 ∧
    (0 ≤ ((cleaned_dataframe_data sort recs).get ⟨i, hi⟩).complete →
      ((cleaned_dataframe_data sort recs).get ⟨i, hi⟩).complete ≤ 100 →
      0 ≤ ((cleaned_dataframe_data sort recs).get ⟨i, hi⟩).start_end →
      0 ≤ ((cleaned_dataframe_data sort recs).get ⟨i, hi⟩).current_num ∧
        ((cleaned_dataframe_data sort recs).get ⟨i, hi⟩).current_num ≤
          (((cleaned_dataframe_data sort recs).get ⟨i, hi⟩).start_end : ℚ)) := by
  have hi2 : i < (raw_dataframe_data sort recs).length := by
    rw [← cleaned_length sort recs]
    exact hi
  rw [cleaned_get_eq sort recs i hi hi2]
  refine ⟨rfl, ?_⟩
  intro hp0 hp100 hs0
  have hs : (0 : ℚ) ≤
      (((raw_dataframe_data sort recs).get ⟨i, hi2⟩).«end».toOrdinal -
        ((raw_dataframe_data sort recs).get ⟨i, hi2⟩).start.toOrdinal : Int) := by
    exact_mod_cast hs0
  constructor
  · exact div_nonneg (mul_nonneg hs hp0) (by norm_num)
  · rw [div_le_iff₀ (by norm_num : (0 : ℚ) < 100)]
    exact mul_le_mul_of_nonneg_left hp100 hs

theorem current_num_formula_bounds_witness :
    0 < (cleaned_dataframe_data true [rec_ok]).length ∧
    (0 : ℚ) ≤ ((cleaned_dataframe_data true [rec_ok]).get ⟨0, by decide⟩).complete ∧
    ((cleaned_dataframe_data true [rec_ok]).get ⟨0, by decide⟩).complete ≤ 100 ∧
    0 ≤ ((cleaned_dataframe_data true [rec_ok]).get ⟨0, by decide⟩).start_end ∧
    (0 ≤ ((cleaned_dataframe_data true [rec_ok]).get ⟨0, by decide⟩).current_num ∧
      ((cleaned_dataframe_data true [rec_ok]).get ⟨0, by decide⟩).current_num ≤
        (((cleaned_dataframe_data true [rec_ok]).get ⟨0, by decide⟩).start_end : ℚ)) :=
  ⟨by decide, by decide, by decide, by decide,
   (current_num_formula_bounds true [rec_ok] 0 (by decide)).2
     (by decide) (by decide) (by decide)⟩

/-- Claim C2 counterexample: for the record of the `toml_data` docstring
(start 2018-06-27, end 2018-06-22, complete 55) the completion bound fails:
`0 ≤ complete ≤ 100` holds but `current_num = -5 * 55/100 < 0`. -/
theorem current_num_nonneg_cex :
    (0 : ℚ) ≤ 55 ∧ (55 : ℚ) ≤ 100 ∧
    (cleaned_dataframe_data true [rec_neg]).map Row.current_num =
      [((-5 : Int) : ℚ) * 55 / 100] ∧
    ¬ (0 ≤ ((-5 : Int) : ℚ) * 55 / 100) := by
  refine ⟨by norm_num, by norm_num, rfl, ?_⟩
  push_cast
  norm_num

/-- Claim C8: every derived row has `start_num ≥ 0`, and a row whose start
date is minimal among all rows has `start_num = 0`. -/
theorem start_num_invariant (sort : Bool) (recs : List Record) :
    (∀ i (hi : i < (cleaned_dataframe_data sort recs).length),
      0 ≤ ((cleaned_dataframe_data sort recs).get ⟨i, hi⟩).start_num) ∧
    (∀ i (hi : i < (cleaned_dataframe_data sort recs).length),
      (∀ r2 ∈ cleaned_dataframe_data sort recs,
        ((cleaned_dataframe_data sort recs).get ⟨i, hi⟩).start.toOrdinal ≤
          r2.start.toOrdinal) →
      ((cleaned_dataframe_data sort recs).get ⟨i, hi⟩).start_num = 0) := by
  have hmem : ∀ i (hi2 : i < (raw_dataframe_data sort recs).length),
      ((raw_dataframe_data sort recs).get ⟨i, hi2⟩).start.toOrdinal ∈
        (raw_dataframe_data sort recs).map (fun x => x.start.toOrdinal) := by
    intro i hi2
    exact List.mem_map_of_mem _ (List.get_mem _ _ hi2)
  constructor
  · intro i hi
    have hi2 : i < (raw_dataframe_data sort recs).length := by
      rw [← cleaned_length sort recs]; exact hi
    rw [cleaned_get_eq sort recs i hi hi2]
    exact sub_nonneg.mpr (seriesMin_le (hmem i hi2))
  · intro i hi hminrow
    have hi2 : i < (raw_dataframe_data sort recs).length := by
      rw [← cleaned_length sort recs]; exact hi
    have hne : (raw_dataframe_data sort recs).map (fun x => x.start.toOrdinal) ≠ [] := by
      intro h
      have := hmem i hi2
      rw [h] at this
      cases this
    obtain ⟨o, ho, hoeq⟩ := List.mem_map.mp (seriesMin_mem hne)
    have hr2 : (fun r : Record =>
        ({ task := r.task
           start := r.start
           «end» := r.«end»
           complete := r.complete
           start_num := r.start.toOrdinal -
             seriesMin ((raw_dataframe_data sort recs).map (fun x => x.start.toOrdinal))
           start_end := r.«end».toOrdinal - r.start.toOrdinal
           end_num := (r.start.toOrdinal -
             seriesMin ((raw_dataframe_data sort recs).map (fun x => x.start.toOrdinal))) +
             (r.«end».toOrdinal - r.start.toOrdinal)
           current_num := ((r.«end».toOrdinal - r.start.toOrdinal : Int) : ℚ) * r.complete / 100
           color := GanttHelper.to_color r.complete
           uid := unique_task_id ((raw_dataframe_data sort recs).map Record.task) r.task } : Row))
        o ∈ cleaned_dataframe_data sort recs := by
      rw [cleaned_def]
      exact List.mem_map_of_mem _ ho
    have hle := hminrow _ hr2
    rw [cleaned_get_eq sort recs i hi hi2] at hle ⊢
    have h1 : seriesMin ((raw_dataframe_data sort recs).map (fun x => x.start.toOrdinal)) ≤
        ((raw_dataframe_data sort recs).get ⟨i, hi2⟩).start.toOrdinal :=
      seriesMin_le (hmem i hi2)
    have h2 : ((raw_dataframe_data sort recs).get ⟨i, hi2⟩).start.toOrdinal ≤
        seriesMin ((raw_dataframe_data sort recs).map (fun x => x.start.toOrdinal)) := by
      calc ((raw_dataframe_data sort recs).get ⟨i, hi2⟩).start.toOrdinal ≤ o.start.toOrdinal :=
              hle
        _ = seriesMin ((raw_dataframe_data sort recs).map (fun x => x.start.toOrdinal)) := hoeq
    simp only [sub_eq_zero]
    exact le_antisymm h2 h1

theorem start_num_invariant_witness :
    (0 < (cleaned_dataframe_data true recs_abc).length ∧
      0 ≤ ((cleaned_dataframe_data true recs_abc).get ⟨0, by decide⟩).start_num) ∧
    ((∀ r2 ∈ cleaned_dataframe_data true recs_abc,
        ((cleaned_dataframe_data true recs_abc).get ⟨0, by decide⟩).start.toOrdinal ≤
          r2.start.toOrdinal) ∧
      ((cleaned_dataframe_data true recs_abc).get ⟨0, by decide⟩).start_num = 0) :=
  ⟨⟨by decide, (start_num_invariant true recs_abc).1 0 (by decide)⟩,
   ⟨by decide, (start_num_invariant true recs_abc).2 0 (by decide) (by decide)⟩⟩

theorem raw_ne_nil (sort : Bool) {recs : List Record} (h : recs ≠ []) :
    raw_dataframe_data sort recs ≠ [] := by
  unfold raw_dataframe_data
  split
  · intro he
    have hl := List.length_insertionSort sort_le recs
    rw [he] at hl
    simp only [List.length_nil] at hl
    exact h (List.length_eq_zero.mp hl.symm)
  · exact h

theorem minStartNum_zero (sort : Bool) (recs : List Record) (h : recs ≠ []) :
    minStartNum (cleaned_dataframe_data sort recs) = 0 := by
  have hmap : (cleaned_dataframe_data sort recs).map Row.start_num =
      (raw_dataframe_data sort recs).map (fun r => r.start.toOrdinal -
        seriesMin ((raw_dataframe_data sort recs).map (fun x => x.start.toOrdinal))) := by
    rw [cleaned_def, List.map_map]
    rfl
  unfold minStartNum
  rw [hmap]
  have hraw := raw_ne_nil sort h
  have hne2 : (raw_dataframe_data sort recs).map (fun x => x.start.toOrdinal) ≠ [] := by
    simpa [List.map_eq_nil_iff] using hraw
  apply seriesMin_eq_of
  · obtain ⟨o, ho, hoeq⟩ := List.mem_map.mp (seriesMin_mem hne2)
    refine List.mem_map.mpr ⟨o, ho, ?_⟩
    rw [← hoeq]
    exact sub_self _
  · intro y hy
    obtain ⟨r, hr, rfl⟩ := List.mem_map.mp hy
    exact sub_nonneg.mpr (seriesMin_le (List.mem_map_of_mem _ hr))

theorem tick_step_ne_zero (gh : GanttHelper) (df : List Row)
    (h2 : maxEndNum df ≠ minStartNum df) (h3 : gh.x_ticks_num ≠ 0) :
    tick_step gh df ≠ 0 := by
  unfold tick_step
  apply div_ne_zero
  · rw [sub_ne_zero]
    exact_mod_cast h2
  · exact_mod_cast h3

theorem plot_eq_ok (gh : GanttHelper) (recs : List Record) (fs : FS)
    (h1 : recs ≠ [])
    (h2 : maxEndNum (cleaned_dataframe_data gh.sort_by_start recs) ≠
      minStartNum (cleaned_dataframe_data gh.sort_by_start recs))
    (h3 : gh.x_ticks_num ≠ 0) :
    gh.plot recs fs = .ok (plot_core gh recs fs
      ((List.range (rat_ceil
          ((maxEndNum (cleaned_dataframe_data gh.sort_by_start recs) : ℚ) /
            tick_step gh (cleaned_dataframe_data gh.sort_by_start recs))).toNat).map
        (fun (k : Nat) => (k : ℚ) *
          tick_step gh (cleaned_dataframe_data gh.sort_by_start recs)))) := by
  have hne : recs.isEmpty = false := by
    cases recs with
    | nil => exact absurd rfl h1
    | cons a l => rfl
  have hstep := tick_step_ne_zero gh (cleaned_dataframe_data gh.sort_by_start recs) h2 h3
  simp only [GanttHelper.plot, hne, Bool.false_eq_true, if_false, np_arange, if_neg hstep]

theorem rat_floor_intCast (z : Int) : rat_floor (z : ℚ) = z := by
  rw [rat_floor_eq, Int.floor_intCast]

theorem arange_count (M : ℚ) (n : Nat) (hM : M ≠ 0) :
    (rat_ceil (M / (M / (n : ℚ)))).toNat = n := by
  have h1 : M / (M / (n : ℚ)) = (n : ℚ) := by field_simp
  rw [h1, rat_ceil_eq, Int.ceil_natCast, Int.toNat_natCast]

theorem pd_date_range_first (a b : Int) (n : Nat) (hn : n ≠ 0) :
    (pd_date_range a b n).head? = some a := by
  obtain ⟨m, rfl⟩ := Nat.exists_eq_succ_of_ne_zero hn
  rw [pd_date_range, List.range_succ_eq_map, List.map_cons, List.head?_cons]
  by_cases hm : m + 1 ≤ 1
  · simp [hm]
  · simp only [hm, if_false]
    congr 1
    have : ((0 : ℕ) : ℚ) * (((b : ℚ) - (a : ℚ))) / (((m + 1 : ℕ) : ℚ) - 1) = 0 := by
      simp
    rw [Nat.cast_zero, zero_mul, zero_div, add_zero, rat_floor_intCast]

theorem pd_date_range_last (a b : Int) (n : Nat) (hn : 2 ≤ n) :
    (pd_date_range a b n).getLast? = some b := by
  obtain ⟨m, rfl⟩ := Nat.exists_eq_succ_of_ne_zero (by omega : n ≠ 0)
  rw [pd_date_range, List.range_succ, List.map_append, List.map_singleton,
    List.getLast?_concat]
  have hm1 : ¬ (m + 1 ≤ 1) := by omega
  simp only [hm1, if_false]
  congr 1
  have hcast : ((m + 1 : ℕ) : ℚ) - 1 = ((m : ℕ) : ℚ) := by push_cast; ring
  have hm0 : ((m : ℕ) : ℚ) ≠ 0 := by
    have : (1 : ℕ) ≤ m := by omega
    exact_mod_cast Nat.one_le_iff_ne_zero.mp this
  have hq : ((a : ℚ) + ((b : ℚ) - (a : ℚ))) = ((b : ℚ)) := by ring
  rw [hcast, mul_div_assoc, mul_comm, div_mul_cancel₀ _ hm0, hq, rat_floor_intCast]

theorem pd_date_range_length (a b : Int) (n : Nat) :
    (pd_date_range a b n).length = n := by
  rw [pd_date_range, List.length_map, List.length_range]

theorem plot_core_proj (gh : GanttHelper) (recs : List Record) (fs : FS) (ticks : List ℚ) :
    (plot_core gh recs fs ticks).1.xticks = ticks ∧
    (plot_core gh recs fs ticks).1.xticklabels =
      (pd_date_range (minStartOrd (cleaned_dataframe_data gh.sort_by_start recs))
          (maxEndOrd (cleaned_dataframe_data gh.sort_by_start recs)) gh.x_ticks_num).map
        (fun d => (Date.fromOrdinal d).format) ∧
    (plot_core gh recs fs ticks).1.title = gh.fname.pyStr ∧
    (plot_core gh recs fs ticks).1.barh_calls =
      [{ ys := (cleaned_dataframe_data gh.sort_by_start recs).map Row.task
         widths := (cleaned_dataframe_data gh.sort_by_start recs).map Row.current_num
         lefts := (cleaned_dataframe_data gh.sort_by_start recs).map
           (fun r => (r.start_num : ℚ))
         colors := (cleaned_dataframe_data gh.sort_by_start recs).map Row.color
         alpha := 1 },
       { ys := (cleaned_dataframe_data gh.sort_by_start recs).map Row.task
         widths := (cleaned_dataframe_data gh.sort_by_start recs).map
           (fun r => (r.start_end : ℚ))
         lefts := (cleaned_dataframe_data gh.sort_by_start recs).map
           (fun r => (r.start_num : ℚ))
         colors := (cleaned_dataframe_data gh.sort_by_start recs).map Row.color
         alpha := 0.5 }] := by
  cases h : gh.fname.truthy
  · simp [plot_core, h]
  · cases houtput : output_path gh fs with
    | error e => simp [plot_core, h, houtput]
    | ok pr => simp [plot_core, h, houtput]

/-- Claim C5 (amended): for a non-empty record set whose total span is
positive (and at least one requested tick), `plot` succeeds with tick step
`(max(end_num) - min(start_num)) / x_ticks_num`, ticks at `0, step,
2*step, ...` (`x_ticks_num` of them, all below `max(end_num)`), and
`x_ticks_num` date labels evenly spaced from the minimum start date to the
maximum end date, formatted `YYYY-MM-DD`. -/
theorem plot_tick_grid (gh : GanttHelper) (recs : List Record) (fs : FS)
    (h1 : recs ≠ []) (h3 : gh.x_ticks_num ≠ 0)
    (h4 : minStartNum (cleaned_dataframe_data gh.sort_by_start recs) <
      maxEndNum (cleaned_dataframe_data gh.sort_by_start recs)) :
    ∃ pr : PlotOutput × FS, gh.plot recs fs = .ok pr ∧
      tick_step gh (cleaned_dataframe_data gh.sort_by_start recs) =
        ((maxEndNum (cleaned_dataframe_data gh.sort_by_start recs) : ℚ) -
          (minStartNum (cleaned_dataframe_data gh.sort_by_start recs) : ℚ)) /
          (gh.x_ticks_num : ℚ) ∧
      pr.1.xticks = claim_tick_positions
        (tick_step gh (cleaned_dataframe_data gh.sort_by_start recs)) gh.x_ticks_num ∧
      (∀ t ∈ pr.1.xticks, 0 ≤ t ∧
        t < (maxEndNum (cleaned_dataframe_data gh.sort_by_start recs) : ℚ)) ∧
      pr.1.xticklabels.length = gh.x_ticks_num ∧
      pr.1.xticklabels.head? = some
        ((Date.fromOrdinal (minStartOrd (cleaned_dataframe_data gh.sort_by_start recs))).format) ∧
      (2 ≤ gh.x_ticks_num → pr.1.xticklabels.getLast? = some
        ((Date.fromOrdinal (maxEndOrd (cleaned_dataframe_data gh.sort_by_start recs))).format)) ∧
      pr.1.xticklabels =
        (pd_date_range (minStartOrd (cleaned_dataframe_data gh.sort_by_start recs))
            (maxEndOrd (cleaned_dataframe_data gh.sort_by_start recs)) gh.x_ticks_num).map
          (fun d => (Date.fromOrdinal d).format) := by
  have h2 : maxEndNum (cleaned_dataframe_data gh.sort_by_start recs) ≠
      minStartNum (cleaned_dataframe_data gh.sort_by_start recs) := ne_of_gt h4
  have hmaster := plot_eq_ok gh recs fs h1 h2 h3
  have hm0 : minStartNum (cleaned_dataframe_data gh.sort_by_start recs) = 0 :=
    minStartNum_zero gh.sort_by_start recs h1
  have hMpos : (0 : Int) < maxEndNum (cleaned_dataframe_data gh.sort_by_start recs) := by
    rw [← hm0]; exact h4
  have hMne0 : maxEndNum (cleaned_dataframe_data gh.sort_by_start recs) ≠ 0 :=
    ne_of_gt hMpos
  have hMne : ((maxEndNum (cleaned_dataframe_data gh.sort_by_start recs) : Int) : ℚ) ≠ 0 := by
    exact_mod_cast hMne0
  have hnpos : 0 < gh.x_ticks_num := Nat.pos_of_ne_zero h3
  have hnq : ((gh.x_ticks_num : Nat) : ℚ) ≠ 0 := by exact_mod_cast h3
  have hstep_eq : tick_step gh (cleaned_dataframe_data gh.sort_by_start recs) =
      ((maxEndNum (cleaned_dataframe_data gh.sort_by_start recs) : Int) : ℚ) /
        ((gh.x_ticks_num : Nat) : ℚ) := by
    unfold tick_step
    rw [hm0]
    norm_num
  have hcount : (rat_ceil
      (((maxEndNum (cleaned_dataframe_data gh.sort_by_start recs) : Int) : ℚ) /
        tick_step gh (cleaned_dataframe_data gh.sort_by_start recs))).toNat =
      gh.x_ticks_num := by
    rw [hstep_eq]
    exact arange_count _ _ hMne
  have hstep_pos : 0 < tick_step gh (cleaned_dataframe_data gh.sort_by_start recs) := by
    rw [hstep_eq]
    apply div_pos
    · exact_mod_cast hMpos
    · exact_mod_cast hnpos
  obtain ⟨hpx, hplab, hptitle, hpbar⟩ :=
    plot_core_proj gh recs fs
      ((List.range (rat_ceil
          ((maxEndNum (cleaned_dataframe_data gh.sort_by_start recs) : ℚ) /
            tick_step gh (cleaned_dataframe_data gh.sort_by_start recs))).toNat).map
        (fun (k : Nat) => (k : ℚ) *
          tick_step gh (cleaned_dataframe_data gh.sort_by_start recs)))
  refine ⟨_, hmaster, rfl, ?_, ?_, ?_, ?_, ?_, ?_⟩
  · rw [hpx, hcount]
    rfl
  · intro t ht
    rw [hpx, hcount] at ht
    obtain ⟨k, hk, rfl⟩ := List.mem_map.mp ht
    have hkn : k < gh.x_ticks_num := List.mem_range.mp hk
    constructor
    · exact mul_nonneg (by positivity) (le_of_lt hstep_pos)
    · have hklt : ((k : Nat) : ℚ) < ((gh.x_ticks_num : Nat) : ℚ) := by exact_mod_cast hkn
      have h5 : (k : ℚ) * tick_step gh (cleaned_dataframe_data gh.sort_by_start recs) <
          ((gh.x_ticks_num : Nat) : ℚ) *
            tick_step gh (cleaned_dataframe_data gh.sort_by_start recs) :=
        mul_lt_mul_of_pos_right hklt hstep_pos
      have h6 : ((gh.x_ticks_num : Nat) : ℚ) *
          tick_step gh (cleaned_dataframe_data gh.sort_by_start recs) =
          ((maxEndNum (cleaned_dataframe_data gh.sort_by_start recs) : Int) : ℚ) := by
        rw [hstep_eq, mul_comm, div_mul_cancel₀ _ hnq]
      rw [h6] at h5
      exact h5
  · rw [hplab, List.length_map, pd_date_range_length]
  · rw [hplab, List.head?_map, pd_date_range_first _ _ _ h3]
    rfl
  · intro h2n
    rw [hplab, List.getLast?_map, pd_date_range_last _ _ _ h2n]
    rfl
  · exact hplab

theorem plot_tick_grid_witness :
    recs_abc ≠ [] ∧ gh_default.x_ticks_num ≠ 0 ∧
    minStartNum (cleaned_dataframe_data gh_default.sort_by_start recs_abc) <
      maxEndNum (cleaned_dataframe_data gh_default.sort_by_start recs_abc) ∧
    (Date.fromOrdinal (minStartOrd
      (cleaned_dataframe_data gh_default.sort_by_start recs_abc))).format = "2018-06-20" ∧
    ∃ pr : PlotOutput × FS, gh_default.plot recs_abc fs0 = .ok pr ∧
      pr.1.xticklabels.length = gh_default.x_ticks_num ∧
      pr.1.xticklabels.head? = some "2018-06-20" :=
  ⟨by decide, by decide, by decide, by decide,
   match plot_tick_grid gh_default recs_abc fs0 (by decide) (by decide) (by decide) with
   | ⟨pr, hok, _, _, _, hlen, hhead, _, _⟩ =>
       ⟨pr, hok, hlen, by rw [hhead]; decide⟩⟩

theorem plot_step_zero (gh : GanttHelper) (recs : List Record) (fs : FS)
    (h1 : recs ≠ [])
    (h2 : maxEndNum (cleaned_dataframe_data gh.sort_by_start recs) =
      minStartNum (cleaned_dataframe_data gh.sort_by_start recs)) :
    gh.plot recs fs = .error "ZeroDivisionError: division by zero" := by
  have hne : recs.isEmpty = false := by
    cases recs with
    | nil => exact absurd rfl h1
    | cons a l => rfl
  have hstep : tick_step gh (cleaned_dataframe_data gh.sort_by_start recs) = 0 := by
    unfold tick_step
    rw [h2, sub_self, zero_div]
  simp only [GanttHelper.plot, hne, Bool.false_eq_true, if_false, np_arange, if_pos hstep]

/-- Claim C5 counterexample: a non-empty record set (one record with
`start = end`) on which `plot` does not place any ticks: the tick step is
`0` and `np.arange` raises `ZeroDivisionError` at line 69. -/
theorem plot_tick_grid_cex :
    gh_default.plot [rec_zero] fs0 = .error "ZeroDivisionError: division by zero" :=
  plot_step_zero gh_default [rec_zero] fs0 (by decide) (by decide)

/-- Claim C3 (amended): a successful `plot()` issues exactly two `barh`
layers per call, with the solid completed-work layer (widths `current_num`,
opacity 1) drawn FIRST, and the faded total-duration layer (widths
`start_end`, opacity 0.5) drawn second, over it; both share left offsets
`start_num`, per-row colors, and the task-label y series whose categorical
index is the row's `uid`. -/
theorem plot_two_bar_layers (gh : GanttHelper) (recs : List Record) (fs : FS)
    (h1 : recs ≠ [])
    (h2 : maxEndNum (cleaned_dataframe_data gh.sort_by_start recs) ≠
      minStartNum (cleaned_dataframe_data gh.sort_by_start recs))
    (h3 : gh.x_ticks_num ≠ 0) :
    ∃ pr : PlotOutput × FS, gh.plot recs fs = .ok pr ∧
      pr.1.barh_calls =
        [{ ys := (cleaned_dataframe_data gh.sort_by_start recs).map Row.task
           widths := (cleaned_dataframe_data gh.sort_by_start recs).map Row.current_num
           lefts := (cleaned_dataframe_data gh.sort_by_start recs).map
             (fun r => (r.start_num : ℚ))
           colors := (cleaned_dataframe_data gh.sort_by_start recs).map Row.color
           alpha := 1 },
         { ys := (cleaned_dataframe_data gh.sort_by_start recs).map Row.task
           widths := (cleaned_dataframe_data gh.sort_by_start recs).map
             (fun r => (r.start_end : ℚ))
           lefts := (cleaned_dataframe_data gh.sort_by_start recs).map
             (fun r => (r.start_num : ℚ))
           colors := (cleaned_dataframe_data gh.sort_by_start recs).map Row.color
           alpha := 0.5 }] ∧
      ((cleaned_dataframe_data gh.sort_by_start recs).map Row.task).map
          (unique_task_id ((cleaned_dataframe_data gh.sort_by_start recs).map Row.task)) =
        (cleaned_dataframe_data gh.sort_by_start recs).map Row.uid := by
  refine ⟨_, plot_eq_ok gh recs fs h1 h2 h3, (plot_core_proj gh recs fs _).2.2.2, ?_⟩
  rw [cleaned_map_task, cleaned_map_uid]
  rfl

theorem plot_two_bar_layers_witness :
    recs_abc ≠ [] ∧
    maxEndNum (cleaned_dataframe_data gh_default.sort_by_start recs_abc) ≠
      minStartNum (cleaned_dataframe_data gh_default.sort_by_start recs_abc) ∧
    gh_default.x_ticks_num ≠ 0 ∧
    ∃ pr : PlotOutput × FS, gh_default.plot recs_abc fs0 = .ok pr ∧
      (pr.1.barh_calls.map BarhCall.alpha = [1, 0.5]) :=
  ⟨by decide, by decide, by decide,
   match plot_two_bar_layers gh_default recs_abc fs0 (by decide) (by decide) (by decide) with
   | ⟨pr, hok, hbar, _⟩ => ⟨pr, hok, by rw [hbar]; rfl⟩⟩

/-- Claim C3 counterexample: at a concrete record set the first-drawn
`barh` layer has opacity 1 (the `current_num` layer) and the second has
opacity 0.5, so the faded `start_end` layer is drawn over the solid one —
the opposite of the claimed order `[0.5, 1]`. -/
theorem plot_layer_order_cex :
    (gh_default.plot recs_abc fs0).map (fun pr => pr.1.barh_calls.map BarhCall.alpha) =
      .ok [1, 0.5] ∧
    ([(1 : ℚ), 0.5] : List ℚ) ≠ [0.5, 1] := by
  constructor
  · rw [plot_eq_ok gh_default recs_abc fs0 (by decide) (by decide) (by decide)]
    simp only [Except.map]
    rw [(plot_core_proj gh_default recs_abc fs0 _).2.2.2]
    rfl
  · intro h
    have h1 : (1 : ℚ) = 0.5 := by
      have := List.head_eq_of_cons_eq h
      exact this
    norm_num at h1

theorem plot_core_saved_of_falsy (gh : GanttHelper) (recs : List Record) (fs : FS)
    (ticks : List ℚ) (htf : gh.fname.truthy = false) :
    (plot_core gh recs fs ticks).1.saved = none ∧ (plot_core gh recs fs ticks).2 = fs := by
  constructor <;> simp [plot_core, htf]

theorem plot_core_saved_of_truthy (gh : GanttHelper) (recs : List Record) (fs : FS)
    (ticks : List ℚ) (htf : gh.fname.truthy = true) (htd : gh.dir.truthy = true) :
    (plot_core gh recs fs ticks).1.saved =
      some (gh.dir.pyStr ++ "/" ++ gh.fname.pyStr ++ ".png") ∧
    (plot_core gh recs fs ticks).2 =
      ⟨(pathPrefixes gh.dir.pyStr).foldl addIfAbsent fs.dirs,
       addIfAbsent fs.files (gh.dir.pyStr ++ "/" ++ gh.fname.pyStr ++ ".png")⟩ := by
  have hmk : os_makedirs fs gh.dir.pyStr true =
      .ok ⟨(pathPrefixes gh.dir.pyStr).foldl addIfAbsent fs.dirs, fs.files⟩ := by
    simp [os_makedirs]
  have hop : output_path gh fs =
      .ok (⟨(pathPrefixes gh.dir.pyStr).foldl addIfAbsent fs.dirs, fs.files⟩,
        gh.dir.pyStr ++ "/" ++ gh.fname.pyStr ++ ".png") := by
    simp [output_path, htd, hmk]
  constructor <;> simp [plot_core, htf, hop]

/-- Claim C7: a completing `plot()` call always sets the chart title to the
f-string rendering of the configured output file base name, whether or not
a file is saved; with the default `fname=False` the title is literally
`"False"` and nothing is saved. -/
theorem plot_title_is_fname (gh : GanttHelper) (recs : List Record) (fs : FS)
    (h1 : recs ≠ [])
    (h2 : maxEndNum (cleaned_dataframe_data gh.sort_by_start recs) ≠
      minStartNum (cleaned_dataframe_data gh.sort_by_start recs))
    (h3 : gh.x_ticks_num ≠ 0) :
    ∃ pr : PlotOutput × FS, gh.plot recs fs = .ok pr ∧
      pr.1.title = gh.fname.pyStr ∧
      (gh.fname = .bool false → pr.1.title = "False" ∧ pr.1.saved = none) := by
  refine ⟨_, plot_eq_ok gh recs fs h1 h2 h3, (plot_core_proj gh recs fs _).2.2.1, ?_⟩
  intro hf
  have ht : gh.fname.truthy = false := by rw [hf]; rfl
  refine ⟨?_, (plot_core_saved_of_falsy gh recs fs _ ht).1⟩
  rw [(plot_core_proj gh recs fs _).2.2.1, hf]
  rfl

theorem plot_title_is_fname_witness :
    recs_abc ≠ [] ∧
    maxEndNum (cleaned_dataframe_data gh_default.sort_by_start recs_abc) ≠
      minStartNum (cleaned_dataframe_data gh_default.sort_by_start recs_abc) ∧
    gh_default.x_ticks_num ≠ 0 ∧ gh_default.fname = .bool false ∧
    ∃ pr : PlotOutput × FS, gh_default.plot recs_abc fs0 = .ok pr ∧
      pr.1.title = "False" ∧ pr.1.saved = none :=
  ⟨by decide, by decide, by decide, rfl,
   match plot_title_is_fname gh_default recs_abc fs0 (by decide) (by decide) (by decide) with
   | ⟨pr, hok, _, himp⟩ => ⟨pr, hok, (himp rfl).1, (himp rfl).2⟩⟩

/-- Claim C9: with an output directory and file name configured, a
completing `plot()` call creates the directory (and its ancestors) if
absent, raises no error when it already exists (and then leaves the
directory set unchanged), and records the figure at `<dir>/<fname>.png`. -/
theorem plot_saves_png (gh : GanttHelper) (recs : List Record) (fs : FS) (d f : String)
    (hdir : gh.dir = .str d) (hfname : gh.fname = .str f)
    (hd : d.isEmpty = false) (hf : f.isEmpty = false)
    (h1 : recs ≠ [])
    (h2 : maxEndNum (cleaned_dataframe_data gh.sort_by_start recs) ≠
      minStartNum (cleaned_dataframe_data gh.sort_by_start recs))
    (h3 : gh.x_ticks_num ≠ 0) :
    ∃ pr : PlotOutput × FS, gh.plot recs fs = .ok pr ∧
      pr.1.saved = some (d ++ "/" ++ f ++ ".png") ∧
      (d ++ "/" ++ f ++ ".png") ∈ pr.2.files ∧
      (∀ p ∈ pathPrefixes d, p ∈ pr.2.dirs) ∧
      ((∀ p ∈ pathPrefixes d, p ∈ fs.dirs) → pr.2.dirs = fs.dirs) := by
  have htf : gh.fname.truthy = true := by
    rw [hfname]
    simp [StrOrBool.truthy, hf]
  have htd : gh.dir.truthy = true := by
    rw [hdir]
    simp [StrOrBool.truthy, hd]
  refine ⟨_, plot_eq_ok gh recs fs h1 h2 h3, ?_, ?_, ?_, ?_⟩
  · rw [(plot_core_saved_of_truthy gh recs fs _ htf htd).1, hdir, hfname]
    rfl
  · rw [(plot_core_saved_of_truthy gh recs fs _ htf htd).2, hdir, hfname]
    exact mem_addIfAbsent_self _ _
  · intro p hp
    rw [(plot_core_saved_of_truthy gh recs fs _ htf htd).2]
    rw [hdir] at *
    exact mem_foldl_addIfAbsent_of_mem _ _ hp
  · intro hall
    rw [(plot_core_saved_of_truthy gh recs fs _ htf htd).2, hdir]
    exact foldl_addIfAbsent_id _ _ hall

theorem plot_saves_png_witness :
    gh_images.dir = .str "Images" ∧ gh_images.fname = .str "Gantt" ∧
    "Images".isEmpty = false ∧ "Gantt".isEmpty = false ∧ recs_abc ≠ [] ∧
    maxEndNum (cleaned_dataframe_data gh_images.sort_by_start recs_abc) ≠
      minStartNum (cleaned_dataframe_data gh_images.sort_by_start recs_abc) ∧
    gh_images.x_ticks_num ≠ 0 ∧
    ∃ pr : PlotOutput × FS, gh_images.plot recs_abc fs0 = .ok pr ∧
      pr.1.saved = some ("Images" ++ "/" ++ "Gantt" ++ ".png") ∧
      ("Images" ++ "/" ++ "Gantt" ++ ".png") ∈ pr.2.files ∧
      (∀ p ∈ pathPrefixes "Images", p ∈ pr.2.dirs) :=
  ⟨rfl, rfl, by decide, by decide, by decide, by decide, by decide,
   match plot_saves_png gh_images recs_abc fs0 "Images" "Gantt" rfl rfl (by decide)
       (by decide) (by decide) (by decide) (by decide) with
   | ⟨pr, hok, hs, hm, hdirs, _⟩ => ⟨pr, hok, hs, hm, hdirs⟩⟩

/-- Claim C10: with the defaults `dir=False, fname=False`, a completing
`plot()` call saves nothing and leaves the filesystem unchanged: the
figure exists in memory only. -/
theorem plot_writes_nothing (gh : GanttHelper) (recs : List Record) (fs : FS)
    (hfname : gh.fname = .bool false) (_hdir : gh.dir = .bool false)
    (h1 : recs ≠ [])
    (h2 : maxEndNum (cleaned_dataframe_data gh.sort_by_start recs) ≠
      minStartNum (cleaned_dataframe_data gh.sort_by_start recs))
    (h3 : gh.x_ticks_num ≠ 0) :
    ∃ pr : PlotOutput × FS, gh.plot recs fs = .ok pr ∧
      pr.1.saved = none ∧ pr.2 = fs := by
  have ht : gh.fname.truthy = false := by rw [hfname]; rfl
  exact ⟨_, plot_eq_ok gh recs fs h1 h2 h3,
    (plot_core_saved_of_falsy gh recs fs _ ht).1,
    (plot_core_saved_of_falsy gh recs fs _ ht).2⟩

theorem plot_writes_nothing_witness :
    gh_default.fname = .bool false ∧ gh_default.dir = .bool false ∧ recs_abc ≠ [] ∧
    maxEndNum (cleaned_dataframe_data gh_default.sort_by_start recs_abc) ≠
      minStartNum (cleaned_dataframe_data gh_default.sort_by_start recs_abc) ∧
    gh_default.x_ticks_num ≠ 0 ∧
    ∃ pr : PlotOutput × FS, gh_default.plot recs_abc fs0 = .ok pr ∧
      pr.1.saved = none ∧ pr.2 = fs0 :=
  ⟨rfl, rfl, by decide, by decide, by decide,
   plot_writes_nothing gh_default recs_abc fs0 rfl rfl (by decide) (by decide) (by decide)⟩
